import Mathlib

/-!
Shallow embedding of the sgf-parser crate: `src/errors.rs`, `src/property.rs`,
`src/node.rs`, `src/game_tree.rs`, `src/collection.rs`.

Modelling conventions:
* Rust `Result<T, SgfParseError>` becomes `Outcome T`; `SgfParseError` carries
  only a message string, so errors are carried as `String`.
* The `todo!()` macro, which panics (aborts without returning a value), is
  modelled by a third constructor `Outcome.panicked` carrying the panic message
  `"not yet implemented"`.  A panic propagates through every caller.
* Each Rust `for (index, character) in source.chars().enumerate()` loop with a
  `skip_counter` becomes a recursive function over the remaining character
  list; `skip_counter = n` becomes `List.drop n`, and the running 0-based
  count of consumed characters `idx` (so the Rust 1-based `index` is
  `idx + 1`) is threaded through.  `L` is the total `source.len()` used by the
  `return ... source.len()` fall-through paths.
* The recursive `GameTree::parse` and the loops that resume after a `drop`
  use a fuel parameter for structural termination; the entry points supply
  fuel that exceeds the number of loop steps possible for the given input, so
  the `"fuel exhausted"` branch is unreachable and evaluation on concrete
  input matches the Rust control flow step for step.
* `u32` values become `Nat` (the overflow branch of `str::parse::<u32>` is
  modelled explicitly; no other arithmetic can overflow).
-/

namespace Sgf

/-- Result of a fallible parsing operation: `ok`/`err` mirror Rust's
`Result<_, SgfParseError>` (the error reduced to its message string), and
`panicked` models a `todo!()` panic, which diverges instead of returning. -/
inductive Outcome (α : Type) where
  | ok : α → Outcome α
  | err : String → Outcome α
  | panicked : String → Outcome α
  deriving DecidableEq

/-- Modelled from the spec: the crate's `chars` module is not among the
provided source files; per the spec (§4.2–§4.4) `(` opens a GameTree, `)`
closes it, and `;` starts a Node.  `collection.rs` declares its own
`TREE_START`/`TREE_END` constants with these same values. -/
def TREE_START : Char := '('

/-- Closing delimiter of a game tree (see `TREE_START`). -/
def TREE_END : Char := ')'

/-- Node-start marker (see `TREE_START`). -/
def NODE_START : Char := ';'

/-- The whitespace match arm `' ' | '\n' | '\t'` shared by all four parse
loops in the source (note that `'\r'` is not part of it). -/
def isSgfWs (c : Char) : Bool := c == ' ' || c == '\n' || c == '\t'

/-- `Color` from `src/property.rs`. -/
inductive Color where
  | White
  | Black
  deriving DecidableEq

/-- `PropertyValue` from `src/property.rs` (lines 32–72).  `u32` fields of
`Number` become `Nat`. -/
inductive PropertyValue where
  | None
  | Number (val min max : Nat)
  | Real (s : String)
  | Double (b : Bool)
  | Color (c : Sgf.Color)
  | SimpleText (s : String)
  | Text (s : String)
  | Point
  | Move
  | Stone
  | Compose (a b : PropertyValue)
  deriving DecidableEq

/-- `PropertyValue::validate` (`src/property.rs` lines 75–98).  Only the
`Number` arm can fail; every other variant, `Compose` included, returns
`Ok(())`. -/
def PropertyValue.validate : PropertyValue → Outcome Unit
  | .None => .ok ()
  | .Number val lo hi =>
      if val < lo ∨ val > hi then
        .err ("Value " ++ toString val ++ " not in range (min " ++ toString lo
          ++ ", max " ++ toString hi ++ ")")
      else .ok ()
  | .Real _ => .ok ()
  | .Double _ => .ok ()
  | .Color _ => .ok ()
  | .SimpleText _ => .ok ()
  | .Text _ => .ok ()
  | .Point => .ok ()
  | .Move => .ok ()
  | .Stone => .ok ()
  | .Compose _ _ => .ok ()

/-- The `PartialEq` implementation for `PropertyValue` (`src/property.rs`
lines 101–114): componentwise comparison when the left operand is a `Number`
and the right operand is a `Number`; every other combination runs `todo!()`
and panics instead of producing a boolean. -/
def PropertyValue.eq : PropertyValue → PropertyValue → Outcome Bool
  | .Number a b c, other =>
      (match other with
       | .Number x y z => .ok (a == x && b == y && c == z)
       | _ => .panicked "not yet implemented")
  | _, _ => .panicked "not yet implemented"

/-- `Property` from `src/property.rs` (lines 116–119). -/
structure Property where
  id : String
  values : List PropertyValue
  deriving DecidableEq

/-- `str::parse::<u32>` as invoked by `Property::get_prop_val`: an optional
leading `+` followed by one or more ASCII digits, rejecting overflow; error
messages are the `Display` strings of Rust's `ParseIntError` kinds. -/
def parseU32 (s : String) : Outcome Nat :=
  let ds := if s.data.head? = some '+' then s.data.tail else s.data
  if s.data = [] then .err "cannot parse integer from empty string"
  else if ds = [] then .err "invalid digit found in string"
  else if ds.all (fun c => c.isDigit) then
    let n := ds.foldl (fun acc c => acc * 10 + (c.toNat - 48)) 0
    if n < 2 ^ 32 then .ok n else .err "number too large to fit in target type"
  else .err "invalid digit found in string"

/-- `Property::get_prop_val` (`src/property.rs` lines 176–189): the only
identifier in the catalog is `"FF"`, parsed as `Number(_, 1, 4)`; any other
identifier hits `todo!()` and panics. -/
def Property.get_prop_val (id val : String) : Outcome PropertyValue :=
  if id = "FF" then
    match parseU32 val with
    | .ok x => .ok (.Number x 1 4)
    | .err e => .err e
    | .panicked m => .panicked m
  else
    .panicked "not yet implemented"

/-- `PropParseMode` from `src/property.rs`. -/
inductive PropParseMode where
  | ID
  | Value

/-- Loop body of `Property::parse` (`src/property.rs` lines 129–165).
Arguments: remaining characters, `L = source.len()`, `idx` characters already
consumed (the Rust 1-based `index` is `idx + 1`), `prev` the previous
character of the source (`source.chars().nth(index - 2)`), the parse mode,
`prop_id`, `prop_id_buffer`, `prop_val_buffer`, and the accumulated values in
reverse order. -/
def propLoop : List Char → Nat → Nat → Option Char → PropParseMode →
    String → String → String → List PropertyValue → Outcome (Property × Nat)
  | [], L, _, _, _, pid, _, _, vals => .ok (⟨pid, vals.reverse⟩, L)
  | c :: rest, L, idx, prev, mode, pid, idBuf, valBuf, vals =>
    if c = '[' then
      propLoop rest L (idx + 1) (some c) .Value idBuf idBuf valBuf vals
    else if c = ']' then
      match Property.get_prop_val pid valBuf with
      | .ok v =>
        match v.validate with
        | .ok _ => propLoop rest L (idx + 1) (some c) mode pid idBuf "" (v :: vals)
        | .err e => .err e
        | .panicked m => .panicked m
      | .err e => .err e
      | .panicked m => .panicked m
    else if isSgfWs c then
      propLoop rest L (idx + 1) (some c) mode pid idBuf valBuf vals
    else if 2 ≤ idx + 1 ∧ prev = some ']' then
      .ok (⟨pid, vals.reverse⟩, idx + 1 - 2)
    else
      match mode with
      | .ID => propLoop rest L (idx + 1) (some c) mode pid (idBuf.push c) valBuf vals
      | .Value => propLoop rest L (idx + 1) (some c) mode pid idBuf (valBuf.push c) vals

/-- `Property::parse` (`src/property.rs` lines 122–174). -/
def Property.parse (source : List Char) : Outcome (Property × Nat) :=
  propLoop source source.length 0 Option.none .ID "" "" "" []

/-- `Node` from `src/node.rs`. -/
structure Node where
  properties : List Property
  deriving DecidableEq

/-- Loop body of `Node::parse` (`src/node.rs` lines 16–51): whitespace is
skipped, `TREE_START` ends the node (consuming the `(` in the returned
count), and any other character — `;` and `)` included, since the match has
no arm for them — is handed to `Property::parse` starting at that character
(`source.split_at(index - 1)`). -/
def nodeLoop : Nat → List Char → Nat → Nat → List Property → Outcome (Node × Nat)
  | _, [], L, _, props => .ok (⟨props.reverse⟩, L)
  | 0, _ :: _, _, _, _ => .panicked "fuel exhausted"
  | fuel + 1, c :: rest, L, idx, props =>
    if isSgfWs c then
      nodeLoop fuel rest L (idx + 1) props
    else if c = TREE_START then
      .ok (⟨props.reverse⟩, idx + 1)
    else
      match Property.parse (c :: rest) with
      | .ok (p, n) => nodeLoop fuel (rest.drop n) L (idx + 1 + n) (p :: props)
      | .err e => .err e
      | .panicked m => .panicked m

/-- `Node::parse`: the caller passes the text after the `;` marker. -/
def Node.parse (source : List Char) : Outcome (Node × Nat) :=
  nodeLoop (source.length + 1) source source.length 0 []

/-- `GameTree` from `src/game_tree.rs`: child trees (`leaves`) and the node
`sequence`. -/
inductive GameTree where
  | mk (leaves : List GameTree) (sequence : List Node)

/-- Child trees of a `GameTree`. -/
def GameTree.leaves : GameTree → List GameTree
  | .mk l _ => l

/-- Node sequence of a `GameTree`. -/
def GameTree.sequence : GameTree → List Node
  | .mk _ s => s

/-- Loop body of `GameTree::parse` (`src/game_tree.rs` lines 12–60).  The
source is the text after the opening `(`.  A nested `(` recurses; on
`Err(_)` the loop `break`s and the fall-through `return` yields
`Ok((tree, source.len()))` — the nested error is discarded.  `)` returns the
tree with the 1-based index of the `)`.  `;` delegates to `Node::parse` and
propagates its error.  Any other non-whitespace character hits `todo!()`.
Reaching end of input returns `Ok((tree, source.len()))` (implicit close). -/
def gtLoop : Nat → List Char → Nat → Nat → List GameTree → List Node →
    Outcome (GameTree × Nat)
  | _, [], L, _, leaves, seq => .ok (⟨leaves.reverse, seq.reverse⟩, L)
  | 0, _ :: _, _, _, _, _ => .panicked "fuel exhausted"
  | fuel + 1, c :: rest, L, idx, leaves, seq =>
    if c = TREE_START then
      match gtLoop fuel rest rest.length 0 [] [] with
      | .ok (t, n) => gtLoop fuel (rest.drop n) L (idx + 1 + n) (t :: leaves) seq
      | .err _ => .ok (⟨leaves.reverse, seq.reverse⟩, L)
      | .panicked m => .panicked m
    else if c = TREE_END then
      .ok (⟨leaves.reverse, seq.reverse⟩, idx + 1)
    else if c = NODE_START then
      match Node.parse rest with
      | .ok (nd, n) => gtLoop fuel (rest.drop n) L (idx + 1 + n) leaves (nd :: seq)
      | .err e => .err e
      | .panicked m => .panicked m
    else if isSgfWs c then
      gtLoop fuel rest L (idx + 1) leaves seq
    else
      .panicked "not yet implemented"

/-- `GameTree::parse`: the caller passes the text after the opening `(`.
The fuel `2 * source.length + 2` exceeds the possible number of loop steps
(each step either consumes a character or enters a nested tree at a `(`). -/
def GameTree.parse (source : List Char) : Outcome (GameTree × Nat) :=
  gtLoop (2 * source.length + 2) source source.length 0 [] []

/-- `Collection` from `src/collection.rs`. -/
structure Collection where
  game_trees : List GameTree

/-- Loop body of `Collection::parse` (`src/collection.rs` lines 15–43): `(`
delegates to `GameTree::parse` on the rest and skips what it consumed,
whitespace is skipped, and any other character hits `todo!()`. -/
def collectionLoop : Nat → List Char → List GameTree → Outcome (List GameTree)
  | _, [], acc => .ok acc.reverse
  | 0, _ :: _, _ => .panicked "fuel exhausted"
  | fuel + 1, c :: rest, acc =>
    if c = TREE_START then
      match GameTree.parse rest with
      | .ok (t, n) => collectionLoop fuel (rest.drop n) (t :: acc)
      | .err e => .err e
      | .panicked m => .panicked m
    else if isSgfWs c then
      collectionLoop fuel rest acc
    else
      .panicked "not yet implemented"

/-- `Collection::parse`. -/
def Collection.parse (source : List Char) : Outcome Collection :=
  match collectionLoop (source.length + 1) source [] with
  | .ok ts => .ok ⟨ts⟩
  | .err e => .err e
  | .panicked m => .panicked m

/-- `Collection::new` (`src/collection.rs` lines 11–13), the crate's
whole-document entry point. -/
def Collection.new (source : String) : Outcome Collection :=
  Collection.parse source.data

/-- C1: the claim says parsing `"(;FF[4])"` yields one tree with one node
holding exactly one property `FF = Number(4,1,4)` and no child trees.  The
code does succeed with one tree, one node, value `Number(4,1,4)` and no
children, but the node holds a second, empty-identifier property with no
values: `Node::parse` has no match arm for `)`, so the closing delimiter is
handed to `Property::parse`, which returns an empty property (and the `)` is
consumed, so the tree is closed implicitly at end of input). -/
theorem c1_ff4_parse_result :
    Collection.new "(;FF[4])" =
      .ok ⟨[.mk [] [⟨[⟨"FF", [.Number 4 1 4]⟩, ⟨"", []⟩]⟩]]⟩ := rfl

/-- C2: the claim says `"(;FF[1]FF[2])"` fails with a duplicate-property
error.  The code has no duplicate check: the parse succeeds and the single
node holds two `FF` properties (plus the spurious empty property produced
from the `)`). -/
theorem c2_duplicate_ff_accepted :
    Collection.new "(;FF[1]FF[2])" =
      .ok ⟨[.mk [] [⟨[⟨"FF", [.Number 1 1 4]⟩, ⟨"FF", [.Number 2 1 4]⟩,
        ⟨"", []⟩]⟩]]⟩ := rfl

/-- C3: `Number(value, min, max)` validation fails exactly when the value is
outside `[min, max]`; `"(;FF[5])"` (range 1–4) aborts the whole parse with
the range error; in-range `FF` values validate successfully. -/
theorem c3_number_range_validation :
    (∀ v lo hi : Nat,
        PropertyValue.validate (.Number v lo hi) = .ok () ↔ (lo ≤ v ∧ v ≤ hi)) ∧
    Collection.new "(;FF[5])" = .err "Value 5 not in range (min 1, max 4)" ∧
    (∀ v : Nat, 1 ≤ v → v ≤ 4 → PropertyValue.validate (.Number v 1 4) = .ok ()) := by
  have hmain : ∀ v lo hi : Nat,
      PropertyValue.validate (.Number v lo hi) = .ok () ↔ (lo ≤ v ∧ v ≤ hi) := by
    intro v lo hi
    simp only [PropertyValue.validate]
    by_cases h : v < lo ∨ v > hi
    · rw [if_pos h]
      exact ⟨fun he => Outcome.noConfusion he, fun hc => absurd h (by omega)⟩
    · rw [if_neg h]
      exact ⟨fun _ => by omega, fun _ => rfl⟩
  exact ⟨hmain, rfl, fun v h1 h2 => (hmain v 1 4).mpr ⟨h1, h2⟩⟩

/-- Witness for C3 at concrete inputs: `Number(3,1,4)` validates. -/
theorem c3_witness : PropertyValue.validate (.Number 3 1 4) = .ok () :=
  c3_number_range_validation.2.2 3 (by decide) (by decide)

/-- C4: the claim says a `(` with no matching `)` before end of input is a
fatal structural error.  The code instead closes the tree implicitly:
`GameTree::parse` falls through its loop at end of input and returns
`Ok((tree, source.len()))`, so `"("` parses successfully to one empty
tree. -/
theorem c4_unterminated_tree_implicitly_closed :
    Collection.new "(" = .ok ⟨[.mk [] []]⟩ := rfl

/-- C5: the claim says an identifier outside the catalog produces a
non-fatal warning plus an opaque value and the parse can still succeed.  In
the code `Property::get_prop_val` has `todo!()` for every identifier other
than `"FF"`, so `"(;AB[x])"` panics instead of parsing. -/
theorem c5_unknown_identifier_panics :
    Collection.new "(;AB[x])" = .panicked "not yet implemented" := rfl

/-- C6: the claim says an illegal character (at document top level, or in a
game-tree body where neither a node nor a nested tree is expected) makes the
parser return a structural error value.  Both `Collection::parse` and
`GameTree::parse` instead hit `todo!()` and panic: `"x"` aborts at top
level, `"(x)"` aborts inside the tree body. -/
theorem c6_illegal_character_panics :
    Collection.new "x" = .panicked "not yet implemented" ∧
    Collection.new "(x)" = .panicked "not yet implemented" := ⟨rfl, rfl⟩

/-- C7: the claim says every fatal error propagates to the top-level result,
in particular an error inside a nested child GameTree.  In the code the
nested-tree arm of `GameTree::parse` matches `Err(_) => break`, discarding
the error: for `"((;FF[5]))"` the inner tree fails with the range error,
yet the whole parse succeeds and returns a single empty tree. -/
theorem c7_nested_error_swallowed :
    GameTree.parse ";FF[5]))".data = .err "Value 5 not in range (min 1, max 4)" ∧
    Collection.new "((;FF[5]))" = .ok ⟨[.mk [] []]⟩ := ⟨rfl, rfl⟩

/-- C8: the claim says a backslash in a bracket body escapes the next
character and is itself discarded.  The code's value loop has no backslash
handling at all: in `"(;FF[\4])"` the backslash is kept as ordinary value
text, so `get_prop_val` receives the two-character string `"\4"` and fails
`u32` parsing, whereas under the claim the value would decode to `"4"` and
parse as `Number(4,1,4)`.  (For the same reason a `]` after a backslash
still terminates the value.) -/
theorem c8_backslash_not_escape :
    Collection.new "(;FF[\\4])" = .err "invalid digit found in string" := rfl

/-- C9: the claim says `"(;FF[1])(;FF[2])"` parses to two top-level trees in
order.  In the code the first node consumes the first `)` as the start of a
property, so `Property::parse` accumulates `")(;FF"` as an identifier and
`get_prop_val` hits `todo!()`: the whole parse panics and the second tree is
never produced. -/
theorem c9_two_trees_panics :
    Collection.new "(;FF[1])(;FF[2])" = .panicked "not yet implemented" := rfl

/-- C10: `PartialEq` on `PropertyValue` is total only on `Number`:
`Number(a,b,c) == Number(x,y,z)` returns componentwise equality (always a
boolean), while comparing any non-`Number` left operand, or a `Number` with
a non-`Number` right operand, panics via `todo!()`. -/
theorem c10_partial_eq_number_only :
    (∀ a b c x y z : Nat,
        PropertyValue.eq (.Number a b c) (.Number x y z) = .ok true ↔
          (a = x ∧ b = y ∧ c = z)) ∧
    (∀ a b c x y z : Nat, ∃ r : Bool,
        PropertyValue.eq (.Number a b c) (.Number x y z) = .ok r) ∧
    (∀ v w : PropertyValue, (∀ a b c, v ≠ .Number a b c) →
        PropertyValue.eq v w = .panicked "not yet implemented") ∧
    (∀ a b c : Nat, ∀ w : PropertyValue, (∀ x y z, w ≠ .Number x y z) →
        PropertyValue.eq (.Number a b c) w = .panicked "not yet implemented") := by
  refine ⟨?_, ?_, ?_, ?_⟩
  · intro a b c x y z
    simp [PropertyValue.eq, and_assoc]
  · intro a b c x y z
    exact ⟨_, rfl⟩
  · intro v w hv
    cases v
    case Number a b c => exact absurd rfl (hv a b c)
    all_goals rfl
  · intro a b c w hw
    cases w
    case Number x y z => exact absurd rfl (hw x y z)
    all_goals rfl

/-- Witness for C10 at concrete inputs: comparing `Point` with `Stone`
panics, and equal `Number`s compare as `true`. -/
theorem c10_witness :
    PropertyValue.eq .Point .Stone = .panicked "not yet implemented" ∧
    PropertyValue.eq (.Number 1 2 3) (.Number 1 2 3) = .ok true :=
  ⟨c10_partial_eq_number_only.2.2.1 .Point .Stone
      (fun _ _ _ h => PropertyValue.noConfusion h),
   (c10_partial_eq_number_only.1 1 2 3 1 2 3).mpr ⟨rfl, rfl, rfl⟩⟩

end Sgf
